import Mathlib

/-!
Shallow embedding of two modules of the databricks-ai-dev-kit repository:

* `databricks-builder-app/server/services/user.py` — request-scoped identity
  and credential resolution (`get_current_user`, `get_current_token`,
  `get_fmapi_token`, `_get_dev_user`, `_fetch_user_from_workspace`,
  `get_workspace_url`), with the process-wide caches made explicit as
  state that is passed in and returned.
* `databricks-mcp-server/databricks_mcp_server/tools/manifest.py` — the
  resource-manifest gateway (`_delete_from_databricks`,
  `delete_tracked_resource`).

Python exceptions are modelled with `Except String`, `None` with
`Option.none`, and the external SDK / remote calls with explicit oracle
parameters describing their outcome for the call at hand.  Python string
truthiness (`if s:`) is modelled by a non-emptiness test on an optional
string.
-/

namespace DatabricksKit

/-- The environment variables read by `user.py`: `ENV`, `DATABRICKS_TOKEN`
and `DATABRICKS_HOST`.  A field holds `none` when the variable is unset
(`os.getenv` returns `None`) and `some v` when it is set to `v`, including
`some ""` for a variable set to the empty string. -/
structure Env where
  env : Option String
  databricks_token : Option String
  databricks_host : Option String
deriving DecidableEq, Repr

/-- Python truthiness of an optional string: `None` and `''` are falsy. -/
def pyTruthy : Option String → Bool
  | none => false
  | some s => s ≠ ""

/-- Embeds `_is_local_development`:
`os.getenv('ENV', 'development') == 'development'`. -/
def _is_local_development (e : Env) : Bool :=
  e.env.getD "development" = "development"

/-- Embeds the development fallback shared by `get_current_token` and
`get_fmapi_token`: `token = os.getenv('DATABRICKS_TOKEN'); if token:
return token; return None`. -/
def _env_token (e : Env) : Option String :=
  match e.databricks_token with
  | some t => if t = "" then none else some t
  | none => none

/-- Embeds `get_current_token`: in production return `None` (use the
service-principal OAuth credentials from the environment); in development
return the `DATABRICKS_TOKEN` value when truthy, else `None`. -/
def get_current_token (e : Env) : Option String :=
  if ¬ _is_local_development e then
    none
  else
    _env_token e

/-- Embeds `get_fmapi_token`.  The parameter `auth` is the outcome of the
whole external interaction inside the `try` block — constructing the
workspace client and calling `client.config.authenticate()`: `.ok hs`
gives the returned header dictionary (as an association list) and
`.error exc` a raised exception.  In production a `Bearer `-prefixed
`Authorization` header yields the token after the prefix; any exception
or unusable header falls through to the `DATABRICKS_TOKEN` fallback. -/
def get_fmapi_token (e : Env) (auth : Except String (List (String × String))) :
    Except String (Option String) :=
  if ¬ _is_local_development e then
    match auth with
    | .ok headers =>
      if headers ≠ [] ∧ (headers.lookup "Authorization").isSome then
        if ((headers.lookup "Authorization").getD "").data.take 7 =
            ("Bearer ").data then
          .ok (some ⟨((headers.lookup "Authorization").getD "").data.drop 7⟩)
        else
          .ok (_env_token e)
      else
        .ok (_env_token e)
    | .error _ => .ok (_env_token e)
  else
    .ok (_env_token e)

/-- Embeds `_fetch_user_from_workspace`.  The parameter `sdk` is the
outcome of `client.current_user.me().user_name`: `.error exc` when
constructing the client or fetching the user raises, `.ok u` with the
(optional, possibly empty) user name otherwise.  A falsy user name raises
inside the same `try`, so every failure surfaces as the wrapped
`Could not determine current user` error. -/
def _fetch_user_from_workspace (sdk : Except String (Option String)) :
    Except String String :=
  match sdk with
  | .error exc => .error ("Could not determine current user: " ++ exc)
  | .ok user_name =>
    if pyTruthy user_name then
      .ok (user_name.getD "")
    else
      .error ("Could not determine current user: " ++
        "WorkspaceClient returned user without email/user_name")

/-- Embeds `_get_dev_user` with the process-wide `_dev_user_cache` made
explicit.  Returns the call outcome, the cache after the call, and the
number of times `_fetch_user_from_workspace` was invoked. -/
def _get_dev_user (cache : Option String) (sdk : Except String (Option String)) :
    Except String String × Option String × Nat :=
  match cache with
  | some u => (.ok u, some u, 0)
  | none =>
    match _fetch_user_from_workspace sdk with
    | .ok user_email => (.ok user_email, some user_email, 1)
    | .error exc => (.error exc, none, 1)

/-- Embeds `get_current_user`.  `header` is
`request.headers.get('X-Forwarded-User')`; `cache` is the current
`_dev_user_cache`; `sdk` is the SDK outcome used by `_get_dev_user` if it
is reached.  Returns the call outcome, the cache after the call, and the
number of SDK lookups performed. -/
def get_current_user (e : Env) (header : Option String) (cache : Option String)
    (sdk : Except String (Option String)) :
    Except String String × Option String × Nat :=
  if pyTruthy header then
    (.ok (header.getD ""), cache, 0)
  else if _is_local_development e then
    _get_dev_user cache sdk
  else
    (.error ("No X-Forwarded-User header found and not in development mode. " ++
      "Ensure the app is deployed with user authentication enabled."), cache, 0)

/-- Embeds Python `str.rstrip('/')`: removes every trailing `/`. -/
def rstripSlashes (s : String) : String :=
  ⟨(s.data.reverse.dropWhile (fun c => c == '/')).reverse⟩

/-- Embeds the fallback branch of `get_workspace_url` that reads
`client.config.host`: `sdkHost` is `.ok h` when the client construction
and the `host` read succeed, `.error exc` when they raise.  On success the
stripped host is cached; on failure the function returns `''` without
caching. -/
def _sdk_host_path (sdkHost : Except String String) : String × Option String :=
  match sdkHost with
  | .ok h => (rstripSlashes h, some (rstripSlashes h))
  | .error _ => ("", none)

/-- Embeds `get_workspace_url` with the process-wide
`_workspace_url_cache` made explicit: returns the result together with
the cache after the call. -/
def get_workspace_url (e : Env) (cache : Option String)
    (sdkHost : Except String String) : String × Option String :=
  match cache with
  | some u => (u, some u)
  | none =>
    match e.databricks_host with
    | some host =>
      if host = "" then
        _sdk_host_path sdkHost
      else
        (rstripSlashes host, some (rstripSlashes host))
    | none => _sdk_host_path sdkHost

/-- Outcomes of the external per-resource-type remote deletion calls made
by `_delete_from_databricks`: one field per distinct call site
(`trash_dashboard`, `delete_job`, `delete_pipeline`,
`AgentBricksManager.genie_delete`, `AgentBricksManager.delete` — shared
by the knowledge-assistant and multi-agent-supervisor branches — and the
unified-catalog `catalogs.delete`, `schemas.delete`, `volumes.delete`).
`.ok ()` means the call returns, `.error exc` that it raises `exc`. -/
structure RemoteOracle where
  trash_dashboard : String → Except String Unit
  delete_job : Int → Except String Unit
  delete_pipeline : String → Except String Unit
  genie_delete : String → Except String Unit
  ab_delete : String → Except String Unit
  catalogs_delete : String → Except String Unit
  schemas_delete : String → Except String Unit
  volumes_delete : String → Except String Unit

/-- Characters stripped by Python `str.strip()` (ASCII whitespace). -/
def pySpace (c : Char) : Bool :=
  c = ' ' ∨ c = '\t' ∨ c = '\n' ∨ c = '\x0b' ∨ c = '\x0c' ∨ c = '\r'

/-- Embeds Python `int(resource_id)` on a string: optional surrounding
whitespace, an optional sign, then a non-empty run of decimal digits;
anything else raises `ValueError` with Python's message (digit-group
underscores are not modelled).  Used by the `job` branch of
`_delete_from_databricks`. -/
def pyIntParse (s : String) : Except String Int :=
  let t := ((s.data.dropWhile pySpace).reverse.dropWhile pySpace).reverse
  let (neg, core) :=
    match t with
    | '-' :: rest => (true, rest)
    | '+' :: rest => (false, rest)
    | _ => (false, t)
  if core ≠ [] ∧ core.all Char.isDigit then
    let n : Nat := core.foldl (fun acc c => acc * 10 + (c.toNat - 48)) 0
    .ok (if neg then -(n : Int) else (n : Int))
  else
    .error ("invalid literal for int() with base 10: " ++ "\x27" ++ s ++ "\x27")

/-- The resource types handled by the `if`/`elif` chain of
`_delete_from_databricks`; every other type reaches the final `else`. -/
def supportedDeleteTypes : List String :=
  ["dashboard", "job", "pipeline", "genie_space", "knowledge_assistant",
   "multi_agent_supervisor", "catalog", "schema", "volume"]

/-- The remote work done inside the `try` of `_delete_from_databricks`
for a supported resource type: the per-type call, preceded for `job` by
the `int(resource_id)` conversion.  (For an unsupported type the source
performs no call; the catch-all `.ok ()` here is never reached through
`_delete_from_databricks`, which guards on `supportedDeleteTypes`.) -/
def remoteDeleteCall (o : RemoteOracle) (resource_type resource_id : String) :
    Except String Unit :=
  if resource_type = "dashboard" then o.trash_dashboard resource_id
  else if resource_type = "job" then do
    let job_id ← pyIntParse resource_id
    o.delete_job job_id
  else if resource_type = "pipeline" then o.delete_pipeline resource_id
  else if resource_type = "genie_space" then o.genie_delete resource_id
  else if resource_type = "knowledge_assistant" then o.ab_delete resource_id
  else if resource_type = "multi_agent_supervisor" then o.ab_delete resource_id
  else if resource_type = "catalog" then o.catalogs_delete resource_id
  else if resource_type = "schema" then o.schemas_delete resource_id
  else if resource_type = "volume" then o.volumes_delete resource_id
  else .ok ()

/-- Embeds `_delete_from_databricks`: `none` on success, `some err` on
failure.  A supported type runs its remote call with every raised
exception stringified by the `except` clause; an unrecognized type
returns the `Unsupported resource type` message from the final `else`
(that branch cannot raise). -/
def _delete_from_databricks (o : RemoteOracle) (resource_type resource_id : String) :
    Option String :=
  if resource_type ∈ supportedDeleteTypes then
    match remoteDeleteCall o resource_type resource_id with
    | .ok () => none
    | .error exc => some exc
  else
    some ("Unsupported resource type for deletion: " ++ resource_type)

/-- The result dictionary built by `delete_tracked_resource`. -/
structure DeleteResult where
  success : Bool
  removed_from_manifest : Bool
  deleted_from_databricks : Bool
  error : Option String
deriving DecidableEq, Repr

/-- Modelled from the spec: the external manifest store's
`remove_resource(type, id) -> bool found` operation (the manifest
persistence module is an external collaborator, not among the specified
sources).  The store is a list of `(type, id)` records; the call reports
whether a matching record was present and returns the store with the
matching records removed. -/
def remove_resource (manifest : List (String × String))
    (resource_type resource_id : String) : Bool × List (String × String) :=
  (manifest.contains (resource_type, resource_id),
   manifest.filter (fun r => r ≠ (resource_type, resource_id)))

/-- Embeds `delete_tracked_resource` over an explicit manifest store:
optionally delete from Databricks first, then always attempt manifest
removal, then apply the result-composition rules of the source.  Both
error tests of the source are Python truthiness tests on an optional
string — `if error:` and `not result.get("error")` — so a remote
exception whose message stringifies to the empty string takes the
success branch, not the failure branch.  Returns the result dictionary
and the manifest after the call. -/
def delete_tracked_resource (o : RemoteOracle) (manifest : List (String × String))
    (type resource_id : String) (del_from_databricks : Bool) :
    DeleteResult × List (String × String) :=
  let r0 : DeleteResult :=
    { success := true, removed_from_manifest := false,
      deleted_from_databricks := false, error := none }
  let r1 : DeleteResult :=
    if del_from_databricks then
      if pyTruthy (_delete_from_databricks o type resource_id) then
        { r0 with error := some ("Databricks deletion failed: " ++
            (_delete_from_databricks o type resource_id).getD ""),
                  success := false }
      else
        { r0 with deleted_from_databricks := true }
    else r0
  let rm := remove_resource manifest type resource_id
  let r2 : DeleteResult := { r1 with removed_from_manifest := rm.1 }
  let r3 : DeleteResult :=
    if rm.1 = false ∧ pyTruthy r2.error = false then
      { r2 with
          error := some ("Resource " ++ type ++ "/" ++ resource_id ++
            " not found in manifest"),
          success := r2.deleted_from_databricks }
    else r2
  (r3, rm.2)

/-- A remote oracle whose calls all succeed; used to instantiate theorems
at concrete inputs. -/
def trivialRemoteOracle : RemoteOracle :=
  ⟨fun _ => .ok (), fun _ => .ok (), fun _ => .ok (), fun _ => .ok (),
   fun _ => .ok (), fun _ => .ok (), fun _ => .ok (), fun _ => .ok ()⟩

/-- A remote oracle whose dashboard deletion raises an exception whose
message stringifies to the empty string (as `str(Exception())` does). -/
def emptyMessageOracle : RemoteOracle :=
  ⟨fun _ => .error "", fun _ => .ok (), fun _ => .ok (), fun _ => .ok (),
   fun _ => .ok (), fun _ => .ok (), fun _ => .ok (), fun _ => .ok ()⟩

/-- A string with a non-empty prefix is truthy under Python's test. -/
theorem pyTruthy_append_prefixed (p s : String) (hp : p.data ≠ []) :
    pyTruthy (some (p ++ s)) = true := by
  have hne : (p ++ s) ≠ "" := by
    intro h
    have hd := congrArg String.data h
    rw [String.data_append] at hd
    exact hp (List.append_eq_nil.mp hd).1
  simp [pyTruthy, hne]

/-- The `Databricks deletion failed: ` error set by
`delete_tracked_resource` is always truthy (non-empty), whatever the
stringified exception was. -/
theorem pyTruthy_deletion_failed (s : String) :
    pyTruthy (some ("Databricks deletion failed: " ++ s)) = true :=
  pyTruthy_append_prefixed "Databricks deletion failed: " s (by decide)

/-- The `Unsupported resource type for deletion: ` message returned for
an unrecognized type is always truthy (non-empty). -/
theorem pyTruthy_unsupported_type (s : String) :
    pyTruthy (some ("Unsupported resource type for deletion: " ++ s)) = true :=
  pyTruthy_append_prefixed "Unsupported resource type for deletion: " s
    (by decide)

/-- An absent optional string is falsy under Python's test. -/
theorem pyTruthy_none : pyTruthy none = false := rfl

/-- Decomposition of `rstripSlashes`: the input is the output followed by
some run of slashes, and the output does not end in a slash. -/
theorem rstripSlashes_spec (s : String) :
    ∃ n, s.data = (rstripSlashes s).data ++ List.replicate n '/' ∧
      (rstripSlashes s).data.getLast? ≠ some '/' := by
  refine ⟨(s.data.reverse.takeWhile (fun c => c == '/')).length, ?_, ?_⟩
  · have htw : s.data.reverse.takeWhile (fun c => c == '/') =
        List.replicate (s.data.reverse.takeWhile (fun c => c == '/')).length '/' :=
      List.eq_replicate_of_mem (fun b hb => by
        have hpb := List.mem_takeWhile_imp hb
        simpa using hpb)
    conv_lhs => rw [← s.data.reverse_reverse,
      ← List.takeWhile_append_dropWhile (p := fun c => c == '/') (l := s.data.reverse),
      List.reverse_append, htw, List.reverse_replicate]
    simp [rstripSlashes]
  · have h := List.head?_dropWhile_not (fun c => c == '/') s.data.reverse
    have hre : (rstripSlashes s).data.getLast? =
        (s.data.reverse.dropWhile (fun c => c == '/')).head? := by
      simp [rstripSlashes]
    rw [hre]
    intro hEq
    rw [hEq] at h
    simp at h

/-- Claim C1 counterexample: remote deletion is requested and the remote
call raises (the dispatcher reports `some ""`, the stringified
exception), yet `success` is `true`: the code's `if error:` truthiness
test sees the empty message as no error and takes the success branch,
refuting the claim that `success` is false whenever remote deletion was
requested and failed. -/
theorem delete_success_empty_exception_counterexample :
    _delete_from_databricks emptyMessageOracle "dashboard" "d1" = some "" ∧
    (delete_tracked_resource emptyMessageOracle [("dashboard", "d1")]
        "dashboard" "d1" true).1.success = true ∧
    (delete_tracked_resource emptyMessageOracle [("dashboard", "d1")]
        "dashboard" "d1" true).1.deleted_from_databricks = true ∧
    (delete_tracked_resource emptyMessageOracle [("dashboard", "d1")]
        "dashboard" "d1" true).1.error = none := by
  decide

/-- Claim C1 (amended): the `success` flag of `delete_tracked_resource`
is `false` exactly when remote deletion was requested and produced a
truthy (non-empty) error string, or when the manifest record was not
found, no truthy remote-deletion error already explains it, and it is
not the case that remote deletion was requested and took the success
branch; in every other case `success` is `true`.  Because the code
tests `if error:`, a requested remote deletion whose exception
stringifies to the empty string counts as the success branch, not as a
failure. -/
theorem delete_tracked_resource_success_rule (o : RemoteOracle)
    (manifest : List (String × String)) (type resource_id : String)
    (alsoDeleteRemote : Bool) :
    (delete_tracked_resource o manifest type resource_id alsoDeleteRemote).1.success
        = false ↔
      ((alsoDeleteRemote = true ∧
          pyTruthy (_delete_from_databricks o type resource_id) = true) ∨
       ((remove_resource manifest type resource_id).1 = false ∧
        ¬ (alsoDeleteRemote = true ∧
            pyTruthy (_delete_from_databricks o type resource_id) = true) ∧
        ¬ (alsoDeleteRemote = true ∧
            pyTruthy (_delete_from_databricks o type resource_id) = false))) := by
  cases alsoDeleteRemote with
  | false =>
    cases hr : (remove_resource manifest type resource_id).1 <;>
      simp [delete_tracked_resource, pyTruthy_none, hr]
  | true =>
    cases ht : pyTruthy (_delete_from_databricks o type resource_id) <;>
      cases hr : (remove_resource manifest type resource_id).1 <;>
        simp [delete_tracked_resource, ht, hr, pyTruthy_deletion_failed,
          pyTruthy_none]

/-- Claim C2 counterexample: calling `delete_tracked_resource` on an
unsupported type with remote deletion requested does touch the manifest
store — a matching record is removed — refuting the claim that no
removal is attempted. -/
theorem delete_unknown_type_manifest_touched_counterexample :
    (delete_tracked_resource trivialRemoteOracle [("unknown_type", "x")]
        "unknown_type" "x" true).2 = [] ∧
    [("unknown_type", "x")] ≠ ([] : List (String × String)) ∧
    (delete_tracked_resource trivialRemoteOracle [("unknown_type", "x")]
        "unknown_type" "x" true).1.removed_from_manifest = true := by
  decide

/-- Claim C2 (amended): on a resource type outside the dispatch
enumeration with remote deletion requested, the result carries the
`Unsupported resource type` error with `success = false` and no remote
deletion, while manifest removal is still attempted: the removal flag and
the resulting store are exactly those of `remove_resource`. -/
theorem delete_unknown_type_error_and_removal (o : RemoteOracle)
    (manifest : List (String × String)) (type resource_id : String)
    (hunsupported : type ∉ supportedDeleteTypes) :
    (delete_tracked_resource o manifest type resource_id true).1.error =
      some ("Databricks deletion failed: " ++
        ("Unsupported resource type for deletion: " ++ type)) ∧
    (delete_tracked_resource o manifest type resource_id true).1.success = false ∧
    (delete_tracked_resource o manifest type resource_id
        true).1.deleted_from_databricks = false ∧
    (delete_tracked_resource o manifest type resource_id
        true).1.removed_from_manifest =
      (remove_resource manifest type resource_id).1 ∧
    (delete_tracked_resource o manifest type resource_id true).2 =
      (remove_resource manifest type resource_id).2 := by
  have hd : _delete_from_databricks o type resource_id =
      some ("Unsupported resource type for deletion: " ++ type) := by
    simp [_delete_from_databricks, hunsupported]
  refine ⟨?_, ?_, ?_, ?_, ?_⟩ <;>
    simp [delete_tracked_resource, hd, pyTruthy_unsupported_type,
      pyTruthy_deletion_failed]

/-- Witness for claim C2's amended theorem at a concrete unsupported
type. -/
theorem delete_unknown_type_error_and_removal_witness :
    "unknown_type" ∉ supportedDeleteTypes ∧
    ((delete_tracked_resource trivialRemoteOracle [("unknown_type", "x")]
        "unknown_type" "x" true).1.error =
      some ("Databricks deletion failed: " ++
        ("Unsupported resource type for deletion: " ++ "unknown_type")) ∧
    (delete_tracked_resource trivialRemoteOracle [("unknown_type", "x")]
        "unknown_type" "x" true).1.success = false ∧
    (delete_tracked_resource trivialRemoteOracle [("unknown_type", "x")]
        "unknown_type" "x" true).1.deleted_from_databricks = false ∧
    (delete_tracked_resource trivialRemoteOracle [("unknown_type", "x")]
        "unknown_type" "x" true).1.removed_from_manifest =
      (remove_resource [("unknown_type", "x")] "unknown_type" "x").1 ∧
    (delete_tracked_resource trivialRemoteOracle [("unknown_type", "x")]
        "unknown_type" "x" true).2 =
      (remove_resource [("unknown_type", "x")] "unknown_type" "x").2) :=
  ⟨by decide,
   delete_unknown_type_error_and_removal trivialRemoteOracle
     [("unknown_type", "x")] "unknown_type" "x" (by decide)⟩

/-- Claim C3 counterexample: for an environment host ending in `//`,
`get_workspace_url` removes BOTH trailing slashes, not precisely one as
the claim states — the result differs from the claim's predicted value
with only one slash removed. -/
theorem get_workspace_url_double_slash_counterexample :
    (get_workspace_url ⟨none, none, some "https://x.cloud.databricks.com//"⟩
        none (.ok "")).1 = "https://x.cloud.databricks.com" ∧
    ("https://x.cloud.databricks.com" : String) ≠
      "https://x.cloud.databricks.com/" := by
  decide

/-- Claim C3 (amended): for an environment-sourced host value,
`get_workspace_url` strips ALL trailing slashes: the host is the returned
value followed by some run of `/` characters and the returned value does
not end in `/` (so a host with exactly one trailing slash loses exactly
that one slash). -/
theorem get_workspace_url_strips_all_trailing_slashes (e : Env)
    (sdkHost : Except String String) (host : String)
    (hhost : e.databricks_host = some host) (hne : host ≠ "") :
    ∃ n, host.data = (get_workspace_url e none sdkHost).1.data ++
        List.replicate n '/' ∧
      (get_workspace_url e none sdkHost).1.data.getLast? ≠ some '/' := by
  have hres : (get_workspace_url e none sdkHost).1 = rstripSlashes host := by
    simp [get_workspace_url, hhost, hne]
  rw [hres]
  exact rstripSlashes_spec host

/-- Witness for claim C3's amended theorem at the spec's example host. -/
theorem get_workspace_url_strips_all_trailing_slashes_witness :
    ∃ n, ("https://x.cloud.databricks.com/").data =
        (get_workspace_url ⟨none, none, some "https://x.cloud.databricks.com/"⟩
          none (.ok "")).1.data ++ List.replicate n '/' ∧
      (get_workspace_url ⟨none, none, some "https://x.cloud.databricks.com/"⟩
          none (.ok "")).1.data.getLast? ≠ some '/' :=
  get_workspace_url_strips_all_trailing_slashes
    ⟨none, none, some "https://x.cloud.databricks.com/"⟩ (.ok "")
    "https://x.cloud.databricks.com/" rfl (by decide)

/-- Claim C4: a request with a non-empty forwarded-user header makes
`get_current_user` return the header value unchanged, for every
environment mode, leaving the identity cache untouched and performing no
SDK lookup. -/
theorem get_current_user_header_verbatim (e : Env) (u : String)
    (cache : Option String) (sdk : Except String (Option String))
    (hu : u ≠ "") :
    get_current_user e (some u) cache sdk = (.ok u, cache, 0) := by
  simp [get_current_user, pyTruthy, hu]

/-- Witness for claim C4 at a concrete production request. -/
theorem get_current_user_header_verbatim_witness :
    "alice@example.com" ≠ "" ∧
    get_current_user ⟨some "production", none, none⟩ (some "alice@example.com")
        none (.error "sdk down") = (.ok "alice@example.com", none, 0) :=
  ⟨by decide,
   get_current_user_header_verbatim ⟨some "production", none, none⟩
     "alice@example.com" none (.error "sdk down") (by decide)⟩

/-- Claim C5: in production mode (ENV set to a non-development value)
with no forwarded-user header, `get_current_user` fails with the
identity-resolution error, whatever the cache and SDK states are — it
never returns a fallback identity. -/
theorem get_current_user_production_no_header_errors (e : Env)
    (cache : Option String) (sdk : Except String (Option String))
    (hprod : _is_local_development e = false) :
    (get_current_user e none cache sdk).1 =
      .error ("No X-Forwarded-User header found and not in development mode. " ++
        "Ensure the app is deployed with user authentication enabled.") := by
  simp [get_current_user, pyTruthy, hprod]

/-- Witness for claim C5 at a concrete production environment. -/
theorem get_current_user_production_no_header_errors_witness :
    _is_local_development ⟨some "production", none, none⟩ = false ∧
    (get_current_user ⟨some "production", none, none⟩ none
        (some "cached@example.com") (.ok (some "sdk@example.com"))).1 =
      .error ("No X-Forwarded-User header found and not in development mode. " ++
        "Ensure the app is deployed with user authentication enabled.") :=
  ⟨by decide,
   get_current_user_production_no_header_errors ⟨some "production", none, none⟩
     (some "cached@example.com") (.ok (some "sdk@example.com")) (by decide)⟩

/-- Claim C6: in development mode with no header, a successful call
populates the identity cache with the returned identity using at most one
SDK lookup, and from a populated cache every further call returns the
same identity with no SDK lookup and an unchanged cache — so two calls
return the identical string and the lookup runs at most once. -/
theorem get_current_user_dev_cache_idempotent (e : Env)
    (hdev : _is_local_development e = true) (cache : Option String)
    (sdk : Except String (Option String)) (u : String)
    (h1 : (get_current_user e none cache sdk).1 = .ok u) :
    (get_current_user e none cache sdk).2.1 = some u ∧
    (get_current_user e none cache sdk).2.2 ≤ 1 ∧
    ∀ sdk2, get_current_user e none (some u) sdk2 = (.ok u, some u, 0) := by
  simp only [get_current_user, pyTruthy, hdev, Bool.false_eq_true,
    if_false, if_true] at h1 ⊢
  cases cache with
  | some v =>
    simp only [_get_dev_user, Except.ok.injEq] at h1 ⊢
    subst h1
    simp [_get_dev_user]
  | none =>
    cases hf : _fetch_user_from_workspace sdk with
    | ok w =>
      simp only [_get_dev_user, hf, Except.ok.injEq] at h1 ⊢
      subst h1
      simp [_get_dev_user, hf]
    | error exc =>
      simp only [_get_dev_user, hf] at h1
      cases h1

/-- Witness for claim C6: a first call that fetches from the SDK, then a
second call that is served from the populated cache with no lookup. -/
theorem get_current_user_dev_cache_idempotent_witness :
    _is_local_development ⟨none, none, none⟩ = true ∧
    (get_current_user ⟨none, none, none⟩ none none
        (.ok (some "alice@example.com"))).1 = .ok "alice@example.com" ∧
    ((get_current_user ⟨none, none, none⟩ none none
        (.ok (some "alice@example.com"))).2.1 = some "alice@example.com" ∧
     (get_current_user ⟨none, none, none⟩ none none
        (.ok (some "alice@example.com"))).2.2 ≤ 1 ∧
     get_current_user ⟨none, none, none⟩ none (some "alice@example.com")
        (.error "sdk down") =
       (.ok "alice@example.com", some "alice@example.com", 0)) :=
  ⟨rfl, rfl,
   (get_current_user_dev_cache_idempotent ⟨none, none, none⟩ rfl none
       (.ok (some "alice@example.com")) "alice@example.com" rfl).1,
   (get_current_user_dev_cache_idempotent ⟨none, none, none⟩ rfl none
       (.ok (some "alice@example.com")) "alice@example.com" rfl).2.1,
   (get_current_user_dev_cache_idempotent ⟨none, none, none⟩ rfl none
       (.ok (some "alice@example.com")) "alice@example.com" rfl).2.2
     (.error "sdk down")⟩

/-- Claim C7: for every type in the dispatch enumeration, an exception
raised by the per-type remote work (including the `int(resource_id)`
conversion of the job branch) is caught and returned as exactly its
message string, and `delete_tracked_resource` still performs manifest
removal afterwards. -/
theorem delete_from_databricks_catches_exceptions (o : RemoteOracle)
    (manifest : List (String × String)) (t resource_id exc : String)
    (hmem : t ∈ supportedDeleteTypes)
    (herr : remoteDeleteCall o t resource_id = .error exc) :
    _delete_from_databricks o t resource_id = some exc ∧
    (delete_tracked_resource o manifest t resource_id
        true).1.removed_from_manifest =
      (remove_resource manifest t resource_id).1 ∧
    (delete_tracked_resource o manifest t resource_id true).2 =
      (remove_resource manifest t resource_id).2 := by
  have h1 : _delete_from_databricks o t resource_id = some exc := by
    simp [_delete_from_databricks, hmem, herr]
  refine ⟨h1, ?_, ?_⟩ <;>
    cases ht : pyTruthy (_delete_from_databricks o t resource_id) <;>
      cases hr : (remove_resource manifest t resource_id).1 <;>
        simp [delete_tracked_resource, ht, hr, pyTruthy_deletion_failed,
          pyTruthy_none]

/-- Witness for claim C7: a non-integer job id makes the job branch raise
in the id conversion; the message is captured and the record is still
removed from the manifest. -/
theorem delete_from_databricks_catches_exceptions_witness :
    "job" ∈ supportedDeleteTypes ∧
    remoteDeleteCall trivialRemoteOracle "job" "abc" =
      .error ("invalid literal for int() with base 10: " ++ "\x27" ++ "abc"
        ++ "\x27") ∧
    (_delete_from_databricks trivialRemoteOracle "job" "abc" =
      some ("invalid literal for int() with base 10: " ++ "\x27" ++ "abc"
        ++ "\x27") ∧
    (delete_tracked_resource trivialRemoteOracle [("job", "abc")] "job" "abc"
        true).1.removed_from_manifest =
      (remove_resource [("job", "abc")] "job" "abc").1 ∧
    (delete_tracked_resource trivialRemoteOracle [("job", "abc")] "job" "abc"
        true).2 =
      (remove_resource [("job", "abc")] "job" "abc").2) :=
  ⟨by decide, rfl,
   delete_from_databricks_catches_exceptions trivialRemoteOracle
     [("job", "abc")] "job" "abc"
     ("invalid literal for int() with base 10: " ++ "\x27" ++ "abc" ++ "\x27")
     (by decide) rfl⟩

/-- Claim C8 counterexample: in development mode with `DATABRICKS_TOKEN`
set to the empty string, `get_current_token` returns `none`, not the set
(empty) environment value the claim predicts. -/
theorem get_current_token_empty_token_counterexample :
    _is_local_development ⟨none, some "", none⟩ = true ∧
    get_current_token ⟨none, some "", none⟩ = none ∧
    (none : Option String) ≠ some "" := by
  decide

/-- Claim C8 (amended): `get_current_token` in production mode returns
`none` for every environment; in development mode it returns the
`DATABRICKS_TOKEN` value when that variable is set to a non-empty string
and `none` when it is unset or set to the empty string. -/
theorem get_current_token_rule (e : Env) (t : String) :
    (_is_local_development e = false → get_current_token e = none) ∧
    (_is_local_development e = true → e.databricks_token = some t → t ≠ "" →
      get_current_token e = some t) ∧
    (_is_local_development e = true →
      (e.databricks_token = none ∨ e.databricks_token = some "") →
      get_current_token e = none) := by
  refine ⟨fun hprod => ?_, fun hdev hset hne => ?_, fun hdev hempty => ?_⟩
  · simp [get_current_token, hprod]
  · simp [get_current_token, hdev, _env_token, hset, hne]
  · rcases hempty with h | h <;> simp [get_current_token, hdev, _env_token, h]

/-- Witness for claim C8's amended theorem: production with a token set,
development with a non-empty token, and development with no token. -/
theorem get_current_token_rule_witness :
    (_is_local_development ⟨some "production", some "tok", none⟩ = false ∧
     get_current_token ⟨some "production", some "tok", none⟩ = none) ∧
    (_is_local_development ⟨none, some "tok", none⟩ = true ∧
     get_current_token ⟨none, some "tok", none⟩ = some "tok") ∧
    get_current_token ⟨none, none, none⟩ = none :=
  ⟨⟨by decide,
    (get_current_token_rule ⟨some "production", some "tok", none⟩ "tok").1
      (by decide)⟩,
   ⟨by decide,
    (get_current_token_rule ⟨none, some "tok", none⟩ "tok").2.1
      (by decide) rfl (by decide)⟩,
   (get_current_token_rule ⟨none, none, none⟩ "").2.2 (by decide)
     (Or.inl rfl)⟩

/-- Claim C9: `get_fmapi_token` never surfaces an error — its outcome is
`.ok` for every environment and every `authenticate` outcome — and in
production mode a failed token mint makes it behave exactly like the
development-mode call: it returns the `DATABRICKS_TOKEN` fallback. -/
theorem get_fmapi_token_soft_failure (e : Env)
    (auth : Except String (List (String × String))) :
    (∃ v, get_fmapi_token e auth = .ok v) ∧
    (∀ exc, auth = .error exc → _is_local_development e = false →
      get_fmapi_token e auth = .ok (_env_token e) ∧
      get_fmapi_token e auth =
        get_fmapi_token { e with env := some "development" } auth) := by
  constructor
  · unfold get_fmapi_token
    split
    · split
      · split
        · split
          · exact ⟨_, rfl⟩
          · exact ⟨_, rfl⟩
        · exact ⟨_, rfl⟩
      · exact ⟨_, rfl⟩
    · exact ⟨_, rfl⟩
  · intro exc hauth hprod
    subst hauth
    obtain ⟨ev, tok, host⟩ := e
    refine ⟨by simp [get_fmapi_token, hprod], ?_⟩
    simp [get_fmapi_token, hprod, _is_local_development, _env_token]

/-- Witness for claim C9: in a production environment whose token mint
raises, the call returns the development fallback token and agrees with
the development-mode call. -/
theorem get_fmapi_token_soft_failure_witness :
    (∃ v, get_fmapi_token ⟨some "production", some "tok", none⟩
        (.error "mint failed") = .ok v) ∧
    get_fmapi_token ⟨some "production", some "tok", none⟩
        (.error "mint failed") = .ok (some "tok") ∧
    get_fmapi_token ⟨some "production", some "tok", none⟩
        (.error "mint failed") =
      get_fmapi_token ⟨some "development", some "tok", none⟩
        (.error "mint failed") :=
  ⟨(get_fmapi_token_soft_failure ⟨some "production", some "tok", none⟩
      (.error "mint failed")).1,
   ((get_fmapi_token_soft_failure ⟨some "production", some "tok", none⟩
      (.error "mint failed")).2 "mint failed" rfl (by decide)).1,
   ((get_fmapi_token_soft_failure ⟨some "production", some "tok", none⟩
      (.error "mint failed")).2 "mint failed" rfl (by decide)).2⟩

/-- Claim C10: a forwarded-user header holding the empty string is
treated exactly like an absent header by `get_current_user`, in every
environment mode and for every cache and SDK state. -/
theorem get_current_user_empty_header_as_absent (e : Env)
    (cache : Option String) (sdk : Except String (Option String)) :
    get_current_user e (some "") cache sdk =
      get_current_user e none cache sdk := by
  simp [get_current_user, pyTruthy]

end DatabricksKit
